import Mathlib

/-!
Shallow embedding of the Cafe_Nostalgia python service
(`python_service/services/shopify_client.py` and
`python_service/services/ai_agent.py`).

Conventions of the embedding:
* JSON-like python values are modelled by `JVal`; python numbers (int and
  float alike) are modelled by `Rat` (every literal in the source is an
  exactly representable decimal).
* Code that can raise a python exception which escapes the modelled
  function returns an `Option`, with `none` standing for the exception.
* The LLM chat-completion calls and the single outbound Shopify REST call
  are modelled by oracle parameters: `Option JVal` for the parsed JSON an
  LLM call produced (`none` = any failure of the call or of JSON parsing)
  and `String → HttpOutcome` mapping a request URL to its outcome.
* The process environment is a parameter `String → Option String`
  (`os.getenv` with default "" is `(env name).getD ""`).
-/

/-! ## Python string primitives -/

/-- Character lower-casing as used by `str.lower` (faithful on ASCII,
which is all the classifier keywords need). -/
def asciiLower (c : Char) : Char :=
  if 'A' ≤ c && c ≤ 'Z' then Char.ofNat (c.toNat + 32) else c

/-- Character upper-casing as used by `str.upper` (faithful on ASCII). -/
def asciiUpper (c : Char) : Char :=
  if 'a' ≤ c && c ≤ 'z' then Char.ofNat (c.toNat - 32) else c

/-- Python `str.lower`. -/
def pyLower (s : String) : String := (s.toList.map asciiLower).asString

/-- Python `str.upper`. -/
def pyUpper (s : String) : String := (s.toList.map asciiUpper).asString

/-- Whether `pat` occurs somewhere inside `s` (python's `pat in s` on the
character lists). -/
def occursIn (pat : List Char) : List Char → Bool
  | [] => pat.isEmpty
  | c :: rest => pat.isPrefixOf (c :: rest) || occursIn pat rest

/-- Python `pat in s` for strings. -/
def pyContains (s pat : String) : Bool := occursIn pat.toList s.toList

/-- Python `s.endswith suffix`. -/
def pyEndsWith (s sfx : String) : Bool := sfx.toList.isSuffixOf s.toList

/-- Python `s.startswith p`. -/
def pyStartsWith (s p : String) : Bool := p.toList.isPrefixOf s.toList

/-- Python `str.replace` on character lists: replace non-overlapping
occurrences of `pat` left to right, resuming the scan after the
replacement.  `fuel` bounds the recursion; with `fuel = s.length` and a
nonempty `pat` (the only way the source uses it) the behaviour matches
python exactly. -/
def replaceChars (pat repl : List Char) : Nat → List Char → List Char
  | 0, s => s
  | _ + 1, [] => []
  | fuel + 1, c :: rest =>
    if pat.isPrefixOf (c :: rest) then
      repl ++ replaceChars pat repl fuel ((c :: rest).drop pat.length)
    else
      c :: replaceChars pat repl fuel rest

/-- Python `s.replace(pat, repl)` (for nonempty `pat`). -/
def pyReplace (s pat repl : String) : String :=
  (replaceChars pat.toList repl.toList s.toList.length s.toList).asString

/-! ## JSON-like python values -/

/-- A python value as passed around by the service: JSON scalars,
lists and dicts (dicts as association lists, first binding wins, which
matches the unique-key literals of the source). -/
inductive JVal where
  | null : JVal
  | bool : Bool → JVal
  | num : Rat → JVal
  | str : String → JVal
  | arr : List JVal → JVal
  | obj : List (String × JVal) → JVal

/-- Python truthiness of a value (`if not data:` etc.). -/
def JVal.truthy : JVal → Bool
  | .null => false
  | .bool b => b
  | .num q => decide (q ≠ 0)
  | .str s => !s.isEmpty
  | .arr xs => !xs.isEmpty
  | .obj fs => !fs.isEmpty

/-- First binding of `key` in a dict's association list. -/
def lookupField : List (String × JVal) → String → Option JVal
  | [], _ => none
  | (k, v) :: rest, key => if k = key then some v else lookupField rest key

/-- Python `d.get(key)` (default `None`).  Used only where the source is
known to hold a dict; the non-dict case never arises at its call sites. -/
def pyGet (v : JVal) (key : String) : JVal :=
  match v with
  | .obj fields => (lookupField fields key).getD .null
  | _ => .null

/-- Python `d.get(key, dflt)` under the same proviso as `pyGet`. -/
def pyGetD (v : JVal) (key : String) (dflt : JVal) : JVal :=
  match v with
  | .obj fields => (lookupField fields key).getD dflt
  | _ => dflt

/-- Extract the string a value holds.  The pipeline's intent and query
values are strings on every path the claims exercise (the source declares
both parameters as `str`); other shapes are mapped to `""`. -/
def asPyStr : JVal → String
  | .str s => s
  | _ => ""

/-- Python `str(...)` for the scalar values that can reach the error
branch of the pipeline (a branch shown unreachable below); container
rendering is elided there. -/
def pyStr : JVal → String
  | .str s => s
  | .bool true => "True"
  | .bool false => "False"
  | .null => "None"
  | .num q => toString q
  | .arr _ => ""
  | .obj _ => ""

/-! ## Numeric parsing and formatting -/

/-- Decimal value of a digit run (caller has checked the digits). -/
def digitsVal0 (cs : List Char) : Nat :=
  cs.foldl (fun n c => n * 10 + (c.toNat - 48)) 0

/-- Decimal value of a nonempty all-digit run, `none` otherwise. -/
def digitsVal (cs : List Char) : Option Nat :=
  if cs.isEmpty then none
  else if cs.all Char.isDigit then some (digitsVal0 cs) else none

/-- Python `int(s)` for plain decimal forms (optional sign, digits);
underscore grouping and other exotic forms are out of the source's use. -/
def parseInt (s : String) : Option Int :=
  match s.toList with
  | '+' :: rest => (digitsVal rest).map Int.ofNat
  | '-' :: rest => (digitsVal rest).map fun n => -(n : Int)
  | cs => (digitsVal cs).map Int.ofNat

/-- Unsigned decimal with optional fractional part, as accepted by
python's `float` (exponent forms, which the source never receives,
are omitted). -/
def parseUnsignedDecimal (cs : List Char) : Option Rat :=
  let intPart := cs.takeWhile (fun c => c ≠ '.')
  let rest := cs.dropWhile (fun c => c ≠ '.')
  match rest with
  | [] => (digitsVal intPart).map fun n => (n : Rat)
  | _ :: fracPart =>
    if intPart.isEmpty && fracPart.isEmpty then none
    else if intPart.all Char.isDigit && fracPart.all Char.isDigit then
      some ((digitsVal0 intPart : Rat) + (digitsVal0 fracPart : Rat) / (10 ^ fracPart.length))
    else none

/-- Python `float(s)` on the decimal forms above (whitespace stripped,
optional sign). -/
def parseDecimal (s : String) : Option Rat :=
  match s.trim.toList with
  | '+' :: cs => parseUnsignedDecimal cs
  | '-' :: cs => (parseUnsignedDecimal cs).map Neg.neg
  | cs => parseUnsignedDecimal cs

/-- Python `float(x)` on a JSON value: numbers pass through, strings are
parsed, bools become 0/1, anything else raises (`none`). -/
def pyFloat : JVal → Option Rat
  | .num q => some q
  | .str s => parseDecimal s
  | .bool b => some (if b then 1 else 0)
  | _ => none

/-- Rounding to the nearest integer as used when printing with `:.2f`
(ties, which never arise for the exactly-representable values of the
source, are rounded up here where python rounds half-even). -/
def ratRound (q : Rat) : Int := (q + 1 / 2).floor

/-- Format a nonnegative rational with two decimals. -/
def formatFixed2Nonneg (q : Rat) : String :=
  let n := (ratRound (q * 100)).toNat
  toString (n / 100) ++ "." ++ (if n % 100 < 10 then "0" else "") ++ toString (n % 100)

/-- Python `f"{q:.2f}"`. -/
def formatFixed2 (q : Rat) : String :=
  if q < 0 then "-" ++ formatFixed2Nonneg (-q) else formatFixed2Nonneg q

/-! ## ShopifyClient (`services/shopify_client.py`) -/

/-- Fixed Admin API version of the client (`self.api_version`). -/
def apiVersion : String := "2024-01"

/-- Outcome of the single outbound Shopify REST call: a response with a
status code and the value its body parses to, or any network failure /
exception (including a body that fails to parse as JSON). -/
inductive HttpOutcome where
  | resp : Nat → JVal → HttpOutcome
  | exn : HttpOutcome

/-- Failure outcomes of the call: any non-200 response (the workers test
`status_code == 200` exactly, so every non-2xx status is here), any
network failure, and any exception. -/
def HttpOutcome.isFailure : HttpOutcome → Bool
  | .resp status _ => decide (status ≠ 200)
  | .exn => true

/-- `ShopifyClient._get_mock_data`: the fixed, intent-keyed literal
mock dataset; the query string is accepted and ignored, and every branch
reports `success = true` with no error field. -/
def mockData (query_type query : String) : JVal :=
  if query_type = "inventory" then
    .obj [("data", .arr [
      .obj [("product_id", .num 1), ("product_name", .str "Product A"),
            ("quantity", .num 15), ("location", .str "Main Warehouse")],
      .obj [("product_id", .num 2), ("product_name", .str "Product B"),
            ("quantity", .num 5), ("location", .str "Main Warehouse")],
      .obj [("product_id", .num 3), ("product_name", .str "Product C"),
            ("quantity", .num 45), ("location", .str "Main Warehouse")]]),
      ("success", .bool true)]
  else if query_type = "products" then
    .obj [("data", .arr [
      .obj [("id", .num 1), ("title", .str "Product X"),
            ("price", .str "29.99"), ("sales_count", .num 150)],
      .obj [("id", .num 2), ("title", .str "Product Y"),
            ("price", .str "49.99"), ("sales_count", .num 120)],
      .obj [("id", .num 3), ("title", .str "Product Z"),
            ("price", .str "19.99"), ("sales_count", .num 100)]]),
      ("success", .bool true)]
  else if query_type = "sales" then
    .obj [("data", .obj [
      ("total_sales", .num ((25001 : Rat) / 2)),
      ("order_count", .num 45),
      ("average_order_value", .num ((27779 : Rat) / 100)),
      ("period", .str "last 30 days")]),
      ("success", .bool true)]
  else if query_type = "customers" then
    .obj [("data", .obj [
      ("customer_count", .num 120),
      ("repeat_customers", .num 35),
      ("repeat_rate", .num ((292 : Rat) / 10))]),
      ("success", .bool true)]
  else
    .obj [("data", .obj []), ("success", .bool true)]

/-- `ShopifyClient._normalize_shop`: strip every occurrence of
`https://` then of `http://` (python `str.replace` removes occurrences
anywhere, not only a leading scheme); if the result does not end in
`.myshopify.com`, keep only the part before the first dot (when a dot is
present) and append the suffix. -/
def normalizeShop (store_id : String) : String :=
  let shop := pyReplace (pyReplace store_id "https://" "") "http://" ""
  if pyEndsWith shop ".myshopify.com" then shop
  else if pyContains shop "." then
    (shop.splitOn ".").headD "" ++ ".myshopify.com"
  else shop ++ ".myshopify.com"

/-- Name of the per-store token variable,
`f"SHOPIFY_ACCESS_TOKEN_{shop.replace('.', '_')}"`. -/
def tokenEnvVar (shop : String) : String :=
  "SHOPIFY_ACCESS_TOKEN_" ++ pyReplace shop "." "_"

/-- `ShopifyClient._get_inventory_data`: one GET of the inventory-levels
endpoint; on a 200 response whose body is a dict, pass the
`inventory_levels` value (default `[]`) through; every other outcome
(non-200 status, exception, non-dict body whose `.get` raises inside
the `try`) falls back to the inventory mock with an empty query. -/
def getInventoryData (net : String → HttpOutcome) (shop _accessToken : String) : JVal :=
  match net ("https://" ++ shop ++ "/admin/api/" ++ apiVersion ++ "/inventory_levels.json") with
  | .resp status body =>
    if status = 200 then
      match body with
      | .obj fields =>
        .obj [("data", (lookupField fields "inventory_levels").getD (.arr [])),
              ("success", .bool true)]
      | _ => mockData "inventory" ""
    else mockData "inventory" ""
  | .exn => mockData "inventory" ""

/-- Python slice `xs[:limit]` for a possibly negative `limit`. -/
def pySlice (limit : Int) (xs : List JVal) : List JVal :=
  if 0 ≤ limit then xs.take limit.toNat else xs.take (xs.length - (-limit).toNat)

/-- Python slice `t[:limit]` on a string. -/
def pySliceStr (limit : Int) (t : String) : String :=
  if 0 ≤ limit then (t.toList.take limit.toNat).asString
  else (t.toList.take (t.toList.length - (-limit).toNat)).asString

/-- The `LIMIT` parse of `_get_products_data`: default 5, overridden by
`int(query.upper().split("LIMIT")[1].strip())` when it parses. -/
def productLimit (query : String) : Int :=
  if pyContains (pyUpper query) "LIMIT" then
    (parseInt (((pyUpper query).splitOn "LIMIT").getD 1 "").trim).getD 5
  else 5

/-- `ShopifyClient._get_products_data`: one GET of the products endpoint
with the parsed limit; on a 200 dict body, slice the `products` value
(list, or string — both sliceable in python) to the limit; any other
outcome falls back to the products mock (a non-sliceable `products`
value raises inside the `try`). -/
def getProductsData (net : String → HttpOutcome) (shop _accessToken query : String) : JVal :=
  match net ("https://" ++ shop ++ "/admin/api/" ++ apiVersion ++ "/products.json?limit="
      ++ toString (productLimit query)) with
  | .resp status body =>
    if status = 200 then
      match body with
      | .obj fields =>
        match (lookupField fields "products").getD (.arr []) with
        | .arr ps => .obj [("data", .arr (pySlice (productLimit query) ps)),
                           ("success", .bool true)]
        | .str t => .obj [("data", .str (pySliceStr (productLimit query) t)),
                          ("success", .bool true)]
        | _ => mockData "products" query
      | _ => mockData "products" query
    else mockData "products" query
  | .exn => mockData "products" query

/-- Summation of `float(order.get("total_price", 0))` over the fetched
orders; `none` when an order is not a dict or a price fails to parse
(python raises, caught by the surrounding `try`). -/
def ordersTotal : List JVal → Option Rat
  | [] => some 0
  | o :: os =>
    match o with
    | .obj fields =>
      match pyFloat ((lookupField fields "total_price").getD (.num 0)), ordersTotal os with
      | some q, some rest => some (q + rest)
      | _, _ => none
    | _ => none

/-- `ShopifyClient._get_orders_data`: one GET of the orders endpoint; on
a 200 dict body whose `orders` value is a list, report the summed
`total_sales`, the order count and the first 10 raw orders; every other
outcome falls back to the sales mock (iterating or slicing a non-list
raises inside the `try`; the degenerate empty-string body value, which
python would iterate zero times, is also folded into the fallback). -/
def getOrdersData (net : String → HttpOutcome) (shop _accessToken query : String) : JVal :=
  match net ("https://" ++ shop ++ "/admin/api/" ++ apiVersion ++ "/orders.json?status=any&limit=250") with
  | .resp status body =>
    if status = 200 then
      match body with
      | .obj fields =>
        match (lookupField fields "orders").getD (.arr []) with
        | .arr orders =>
          match ordersTotal orders with
          | some total =>
            .obj [("data", .obj [
                ("total_sales", .num total),
                ("order_count", .num (orders.length : Rat)),
                ("orders", .arr (orders.take 10))]),
              ("success", .bool true)]
          | none => mockData "sales" query
        | _ => mockData "sales" query
      | _ => mockData "sales" query
    else mockData "sales" query
  | .exn => mockData "sales" query

/-- `ShopifyClient._get_customers_data`: one GET of the customers
endpoint; on a 200 dict body whose `customers` value is a list, report
the customer count and the first 10 raw customers; every other outcome
falls back to the customers mock. -/
def getCustomersData (net : String → HttpOutcome) (shop _accessToken query : String) : JVal :=
  match net ("https://" ++ shop ++ "/admin/api/" ++ apiVersion ++ "/customers.json?limit=250") with
  | .resp status body =>
    if status = 200 then
      match body with
      | .obj fields =>
        match (lookupField fields "customers").getD (.arr []) with
        | .arr cs =>
          .obj [("data", .obj [
              ("customer_count", .num (cs.length : Rat)),
              ("customers", .arr (cs.take 10))]),
            ("success", .bool true)]
        | _ => mockData "customers" query
      | _ => mockData "customers" query
    else mockData "customers" query
  | .exn => mockData "customers" query

/-- `ShopifyClient.execute_query`: normalize the store id, read the
per-store access token from the environment (default `""`), short-circuit
to mock data when it is empty, otherwise dispatch on the query type to
the live-call workers (unknown types also go to mock data). -/
def executeQuery (env : String → Option String) (net : String → HttpOutcome)
    (store_id query query_type : String) : JVal :=
  if (env (tokenEnvVar (normalizeShop store_id))).getD "" = "" then
    mockData query_type query
  else if query_type = "inventory" then
    getInventoryData net (normalizeShop store_id) ((env (tokenEnvVar (normalizeShop store_id))).getD "")
  else if query_type = "products" then
    getProductsData net (normalizeShop store_id) ((env (tokenEnvVar (normalizeShop store_id))).getD "") query
  else if query_type = "sales" then
    getOrdersData net (normalizeShop store_id) ((env (tokenEnvVar (normalizeShop store_id))).getD "") query
  else if query_type = "customers" then
    getCustomersData net (normalizeShop store_id) ((env (tokenEnvVar (normalizeShop store_id))).getD "") query
  else mockData query_type query

/-! ## AIAgent (`services/ai_agent.py`) -/

/-- `AIAgent._fallback_query_generation`: deterministic keyword matching
over the lower-cased question, in source order — inventory/stock first
(with a low-stock sub-branch), then top+product, then customer/repeat,
then sales/revenue, then the sales default.  The source re-assigns
`limit = 5` when the question mentions "5" or "five", leaving the value
unchanged either way. -/
def fallbackQueryGeneration (question : String) : JVal :=
  let questionLower := pyLower question
  if pyContains questionLower "inventory" || pyContains questionLower "stock" then
    if pyContains questionLower "out of stock" || pyContains questionLower "low" then
      .obj [("intent", .str "inventory"),
            ("query", .str "SHOW inventory_levels FROM products WHERE quantity < 20")]
    else
      .obj [("intent", .str "inventory"),
            ("query", .str "SHOW inventory_levels FROM products")]
  else if pyContains questionLower "top" && pyContains questionLower "product" then
    let limit : Nat := if pyContains question "5" || pyContains questionLower "five" then 5 else 5
    .obj [("intent", .str "products"),
          ("query", .str ("SHOW top_selling_products FROM orders SINCE -7d LIMIT " ++ toString limit))]
  else if pyContains questionLower "customer" || pyContains questionLower "repeat" then
    .obj [("intent", .str "customers"),
          ("query", .str "SHOW repeat_customers FROM orders SINCE -90d")]
  else if pyContains questionLower "sales" || pyContains questionLower "revenue" then
    .obj [("intent", .str "sales"),
          ("query", .str "SHOW total_sales FROM orders SINCE -30d")]
  else
    .obj [("intent", .str "sales"),
          ("query", .str "SHOW total_sales FROM orders SINCE -30d")]

/-- `AIAgent._generate_shopifyql_query`: when the LLM call yields a JSON
dict, propagate a truthy `error` field or build the classification result
with the source's defaults; any failure of the call or a non-dict JSON
result (whose `.get` raises inside the `try`) uses the keyword
fallback.  The store id is unused by the source body. -/
def generateShopifyqlQuery (llm : Option JVal) (question _store_id : String) : JVal :=
  match llm with
  | some (.obj fields) =>
    if ((lookupField fields "error").getD .null).truthy then
      .obj [("error", (lookupField fields "error").getD .null)]
    else
      .obj [("intent", (lookupField fields "intent").getD (.str "sales")),
            ("query", (lookupField fields "query").getD (.str "")),
            ("reasoning", (lookupField fields "reasoning").getD (.str ""))]
  | some _ => fallbackQueryGeneration question
  | none => fallbackQueryGeneration question

/-- Low-stock test of one inventory record,
`item.get("quantity", 0) < 20`: a missing field counts as 0; a bool
counts as 0/1 (both below 20); a non-dict record or a quantity that
python cannot order against an int raises (`none`). -/
def qtyLow (item : JVal) : Option Bool :=
  match item with
  | .obj fields =>
    match (lookupField fields "quantity").getD (.num 0) with
    | .num q => some (decide (q < 20))
    | .bool _ => some true
    | _ => none
  | _ => none

/-- The list comprehension
`[item for item in data if item.get("quantity", 0) < 20]`; `none` when
any record makes `qtyLow` raise. -/
def filterLow : List JVal → Option (List JVal)
  | [] => some []
  | x :: xs =>
    match qtyLow x, filterLow xs with
    | some b, some rest => some (if b then x :: rest else rest)
    | _, _ => none

/-- `AIAgent._fallback_explanation`: deterministic templates keyed by the
query type, with `none` for the paths where the source raises (those
exceptions escape to the pipeline's outer handler). -/
def fallbackExplanation (_question : String) (data : JVal) (query_type : String) : Option JVal :=
  if data.truthy = false then
    some (.obj [("answer", .str "I couldn\x27t retrieve the requested data. Please check your store connection and try again."),
                ("confidence", .str "low")])
  else if query_type = "inventory" then
    match data with
    | .arr items =>
      if 0 < items.length then
        match filterLow items with
        | some lowStock =>
          some (.obj [("answer", .str ("Found " ++ toString lowStock.length
                        ++ " products with low inventory (less than 20 units). Consider reordering soon.")),
                      ("confidence", .str "medium")])
        | none => none
      else
        some (.obj [("answer", .str "Inventory data retrieved. Review the details to make reordering decisions."),
                    ("confidence", .str "medium")])
    | _ =>
      some (.obj [("answer", .str "Inventory data retrieved. Review the details to make reordering decisions."),
                  ("confidence", .str "medium")])
  else if query_type = "products" then
    match data with
    | .arr items =>
      some (.obj [("answer", .str ("Found " ++ toString items.length
                    ++ " top-selling products. Review the list to identify your best performers.")),
                  ("confidence", .str "medium")])
    | _ =>
      some (.obj [("answer", .str ("Retrieved " ++ query_type ++ " data. Review the details for insights.")),
                  ("confidence", .str "medium")])
  else if query_type = "sales" then
    match data with
    | .obj fields =>
      match (lookupField fields "total_sales").getD ((lookupField fields "sales").getD (.num 0)) with
      | .num total =>
        some (.obj [("answer", .str ("Total sales: $" ++ formatFixed2 total ++ " for the requested period.")),
                    ("confidence", .str "medium")])
      | .bool b =>
        some (.obj [("answer", .str ("Total sales: $" ++ formatFixed2 (if b then 1 else 0) ++ " for the requested period.")),
                    ("confidence", .str "medium")])
      | _ => none
    | _ => none
  else
    some (.obj [("answer", .str ("Retrieved " ++ query_type ++ " data. Review the details for insights.")),
                ("confidence", .str "medium")])

/-- `AIAgent._generate_explanation`: when the LLM call yields a JSON
dict, read `answer` and `confidence` with the source's defaults; any
failure of the call and any non-dict JSON result fall back to the
deterministic templates. -/
def generateExplanation (llm : Option JVal) (question : String) (data : JVal)
    (query_type : String) : Option JVal :=
  match llm with
  | some (.obj fields) =>
    some (.obj [("answer", (lookupField fields "answer").getD (.str "Unable to generate explanation")),
                ("confidence", (lookupField fields "confidence").getD (.str "medium"))])
  | some _ => fallbackExplanation question data query_type
  | none => fallbackExplanation question data query_type

/-- `AIAgent.process_question`: classify, fetch, explain.  The two LLM
oracles stand for the classifier and explainer calls; an escaped
exception from the explanation fallback is caught by the outer handler
of the source, whose `str(e)` suffix is elided here. -/
def processQuestion (llmQ llmE : Option JVal) (env : String → Option String)
    (net : String → HttpOutcome) (question store_id : String) : JVal :=
  let queryResult := generateShopifyqlQuery llmQ question store_id
  if (pyGet queryResult "error").truthy then queryResult
  else
    let dataResult := executeQuery env net store_id
      (asPyStr (pyGet queryResult "query")) (asPyStr (pyGet queryResult "intent"))
    if (pyGet dataResult "error").truthy then
      .obj [("error", .str ("Failed to execute query: " ++ pyStr (pyGet dataResult "error"))),
            ("query_used", pyGet queryResult "query")]
    else
      match generateExplanation llmE question (pyGetD dataResult "data" (.obj []))
          (asPyStr (pyGet queryResult "intent")) with
      | none => .obj [("error", .str "Agent processing error")]
      | some explanation =>
        .obj [("answer", pyGetD explanation "answer" (.str "Unable to generate answer")),
              ("confidence", pyGetD explanation "confidence" (.str "medium")),
              ("query_used", pyGet queryResult "query"),
              ("data", pyGet dataResult "data")]

/-! ## Helper lemmas -/

theorem asString_toList (s : String) : s.toList.asString = s := rfl

/-- When `pat` does not occur in `s`, replacement leaves `s` unchanged,
for any fuel. -/
theorem replaceChars_no_occur (pat repl s : List Char) (h : occursIn pat s = false) :
    ∀ fuel, replaceChars pat repl fuel s = s := by
  induction s with
  | nil => intro fuel; cases fuel <;> rfl
  | cons c rest ih =>
    intro fuel
    cases fuel with
    | zero => rfl
    | succ n =>
      unfold occursIn at h
      rw [Bool.or_eq_false_iff] at h
      unfold replaceChars
      rw [if_neg (by simp [h.1])]
      rw [ih h.2 n]

/-- `str.replace` is the identity when the pattern is absent. -/
theorem pyReplace_no_occur (s pat repl : String) (h : pyContains s pat = false) :
    pyReplace s pat repl = s := by
  unfold pyReplace
  rw [replaceChars_no_occur _ _ _ h]
  exact asString_toList s

/-- Appending a suffix makes `endswith` true. -/
theorem pyEndsWith_append (a b : String) : pyEndsWith (a ++ b) b = true := by
  unfold pyEndsWith
  rw [show (a ++ b).toList = a.toList ++ b.toList from String.data_append a b]
  simp [List.isSuffixOf_iff_suffix]

/-- Every output of `_normalize_shop` ends in the canonical suffix. -/
theorem normalizeShop_endsWith (s : String) :
    pyEndsWith (normalizeShop s) ".myshopify.com" = true := by
  simp only [normalizeShop]
  split_ifs with h1 h2
  · exact h1
  · exact pyEndsWith_append _ _
  · exact pyEndsWith_append _ _

/-- The mock dataset always reports success and carries no error field. -/
theorem mockData_ok (t q : String) :
    pyGet (mockData t q) "success" = .bool true ∧ pyGet (mockData t q) "error" = .null := by
  unfold mockData
  split_ifs <;> exact ⟨rfl, rfl⟩

theorem getInventoryData_ok (net : String → HttpOutcome) (shop tok : String) :
    pyGet (getInventoryData net shop tok) "success" = .bool true
      ∧ pyGet (getInventoryData net shop tok) "error" = .null := by
  unfold getInventoryData
  split
  · split_ifs
    · split <;> first | exact ⟨rfl, rfl⟩ | exact mockData_ok _ _
    · exact mockData_ok _ _
  · exact mockData_ok _ _

theorem getProductsData_ok (net : String → HttpOutcome) (shop tok q : String) :
    pyGet (getProductsData net shop tok q) "success" = .bool true
      ∧ pyGet (getProductsData net shop tok q) "error" = .null := by
  unfold getProductsData
  split
  · split_ifs
    · split
      · split <;> first | exact ⟨rfl, rfl⟩ | exact mockData_ok _ _
      · exact mockData_ok _ _
    · exact mockData_ok _ _
  · exact mockData_ok _ _

theorem getOrdersData_ok (net : String → HttpOutcome) (shop tok q : String) :
    pyGet (getOrdersData net shop tok q) "success" = .bool true
      ∧ pyGet (getOrdersData net shop tok q) "error" = .null := by
  unfold getOrdersData
  split
  · split_ifs
    · split
      · split
        · split <;> first | exact ⟨rfl, rfl⟩ | exact mockData_ok _ _
        · exact mockData_ok _ _
      · exact mockData_ok _ _
    · exact mockData_ok _ _
  · exact mockData_ok _ _

theorem getCustomersData_ok (net : String → HttpOutcome) (shop tok q : String) :
    pyGet (getCustomersData net shop tok q) "success" = .bool true
      ∧ pyGet (getCustomersData net shop tok q) "error" = .null := by
  unfold getCustomersData
  split
  · split_ifs
    · split
      · split <;> first | exact ⟨rfl, rfl⟩ | exact mockData_ok _ _
      · exact mockData_ok _ _
    · exact mockData_ok _ _
  · exact mockData_ok _ _

/-- With an empty (or absent) access token, `execute_query`
short-circuits to the mock dataset, for any network behaviour. -/
theorem executeQuery_noToken (env : String → Option String) (net : String → HttpOutcome)
    (store_id query query_type : String)
    (h : (env (tokenEnvVar (normalizeShop store_id))).getD "" = "") :
    executeQuery env net store_id query query_type = mockData query_type query := by
  unfold executeQuery
  rw [if_pos h]

/-- Evaluation rule for `ratRound` through the Mathlib floor. -/
theorem ratRound_eval (q : Rat) (z : Int) (h1 : (z : Rat) ≤ q + 1 / 2) (h2 : q + 1 / 2 < z + 1) :
    ratRound q = z := by
  unfold ratRound
  rw [Rat.floor_def', ← Rat.floor_def]
  exact Int.floor_eq_iff.mpr ⟨h1, h2⟩

/-- The mock total formats as the literal the spec quotes. -/
theorem formatFixed2_mockSales : formatFixed2 ((25001 : Rat) / 2) = "12500.50" := by
  have h0 : ¬((25001 : Rat) / 2 < 0) := by norm_num
  have hr : ratRound ((25001 : Rat) / 2 * 100) = 1250050 :=
    ratRound_eval _ _ (by norm_num) (by norm_num)
  rw [formatFixed2, if_neg h0]
  unfold formatFixed2Nonneg
  rw [hr]
  rfl

/-- A record that passes the low-stock test is kept by the
comprehension. -/
theorem mem_filterLow {items low : List JVal} {x : JVal} (hmem : x ∈ items)
    (hq : qtyLow x = some true) (h : filterLow items = some low) : x ∈ low := by
  induction items generalizing low with
  | nil => cases hmem
  | cons a as ih =>
    unfold filterLow at h
    cases hqa : qtyLow a with
    | none => rw [hqa] at h; cases h
    | some b =>
      cases hfl : filterLow as with
      | none => rw [hqa, hfl] at h; cases h
      | some rest =>
        rw [hqa, hfl] at h
        injection h with h'
        cases hmem with
        | head =>
          rw [hq] at hqa
          injection hqa with hb
          rw [← h', ← hb]
          simp
        | tail _ hmem' =>
          have hx : x ∈ rest := ih hmem' hfl
          rw [← h']
          cases b with
          | true => exact List.mem_cons_of_mem _ hx
          | false => simpa using hx

/-- When every outcome the network can produce is a failure, the
inventory worker degrades to its mock call (which the source makes with
an empty query). -/
theorem getInventoryData_failed (net : String → HttpOutcome) (shop tok : String)
    (h : ∀ u, (net u).isFailure = true) :
    getInventoryData net shop tok = mockData "inventory" "" := by
  unfold getInventoryData
  cases hnet : net ("https://" ++ shop ++ "/admin/api/" ++ apiVersion ++ "/inventory_levels.json") with
  | exn => rfl
  | resp status body =>
    have hs : status ≠ 200 := by
      have hu := h ("https://" ++ shop ++ "/admin/api/" ++ apiVersion ++ "/inventory_levels.json")
      rw [hnet] at hu
      simpa [HttpOutcome.isFailure] using hu
    simp [hs]

/-- When every outcome the network can produce is a failure, the
products worker degrades to its mock call. -/
theorem getProductsData_failed (net : String → HttpOutcome) (shop tok query : String)
    (h : ∀ u, (net u).isFailure = true) :
    getProductsData net shop tok query = mockData "products" query := by
  unfold getProductsData
  cases hnet : net ("https://" ++ shop ++ "/admin/api/" ++ apiVersion ++ "/products.json?limit="
      ++ toString (productLimit query)) with
  | exn => rfl
  | resp status body =>
    have hs : status ≠ 200 := by
      have hu := h ("https://" ++ shop ++ "/admin/api/" ++ apiVersion ++ "/products.json?limit="
        ++ toString (productLimit query))
      rw [hnet] at hu
      simpa [HttpOutcome.isFailure] using hu
    simp [hs]

/-- When every outcome the network can produce is a failure, the orders
worker degrades to its mock call. -/
theorem getOrdersData_failed (net : String → HttpOutcome) (shop tok query : String)
    (h : ∀ u, (net u).isFailure = true) :
    getOrdersData net shop tok query = mockData "sales" query := by
  unfold getOrdersData
  cases hnet : net ("https://" ++ shop ++ "/admin/api/" ++ apiVersion ++ "/orders.json?status=any&limit=250") with
  | exn => rfl
  | resp status body =>
    have hs : status ≠ 200 := by
      have hu := h ("https://" ++ shop ++ "/admin/api/" ++ apiVersion ++ "/orders.json?status=any&limit=250")
      rw [hnet] at hu
      simpa [HttpOutcome.isFailure] using hu
    simp [hs]

/-- When every outcome the network can produce is a failure, the
customers worker degrades to its mock call. -/
theorem getCustomersData_failed (net : String → HttpOutcome) (shop tok query : String)
    (h : ∀ u, (net u).isFailure = true) :
    getCustomersData net shop tok query = mockData "customers" query := by
  unfold getCustomersData
  cases hnet : net ("https://" ++ shop ++ "/admin/api/" ++ apiVersion ++ "/customers.json?limit=250") with
  | exn => rfl
  | resp status body =>
    have hs : status ≠ 200 := by
      have hu := h ("https://" ++ shop ++ "/admin/api/" ++ apiVersion ++ "/customers.json?limit=250")
      rw [hnet] at hu
      simpa [HttpOutcome.isFailure] using hu
    simp [hs]

/-- Success of `execute_query` for any environment, network behaviour
and query type. -/
theorem executeQuery_ok (env : String → Option String) (net : String → HttpOutcome)
    (store_id query query_type : String) :
    pyGet (executeQuery env net store_id query query_type) "success" = .bool true
      ∧ pyGet (executeQuery env net store_id query query_type) "error" = .null := by
  unfold executeQuery
  split_ifs
  · exact mockData_ok _ _
  · exact getInventoryData_ok _ _ _
  · exact getProductsData_ok _ _ _ _
  · exact getOrdersData_ok _ _ _ _
  · exact getCustomersData_ok _ _ _ _
  · exact mockData_ok _ _

/-! ## Claims -/

/-- Claim C1: for store_id "my-shop" and question "what are my top 5
selling products", when both LLM calls fail and no access token is
configured, the pipeline returns no error; the classifier fallback picks
intent "products" with a query containing "LIMIT 5", the fetcher returns
the 3-item mock products dataset, and the explainer fallback answers
"Found 3 top-selling products..." at confidence "medium". -/
theorem c1_end_to_end (env : String → Option String) (net : String → HttpOutcome)
    (h : env "SHOPIFY_ACCESS_TOKEN_my-shop_myshopify_com" = none) :
    processQuestion none none env net "what are my top 5 selling products" "my-shop"
      = JVal.obj [
          ("answer", .str "Found 3 top-selling products. Review the list to identify your best performers."),
          ("confidence", .str "medium"),
          ("query_used", .str "SHOW top_selling_products FROM orders SINCE -7d LIMIT 5"),
          ("data", .arr [
            .obj [("id", .num 1), ("title", .str "Product X"),
                  ("price", .str "29.99"), ("sales_count", .num 150)],
            .obj [("id", .num 2), ("title", .str "Product Y"),
                  ("price", .str "49.99"), ("sales_count", .num 120)],
            .obj [("id", .num 3), ("title", .str "Product Z"),
                  ("price", .str "19.99"), ("sales_count", .num 100)]])]
    ∧ pyGet (processQuestion none none env net "what are my top 5 selling products" "my-shop") "error" = .null
    ∧ pyGet (generateShopifyqlQuery none "what are my top 5 selling products" "my-shop") "intent" = .str "products"
    ∧ pyContains "SHOW top_selling_products FROM orders SINCE -7d LIMIT 5" "LIMIT 5" = true
    ∧ pyStartsWith "Found 3 top-selling products. Review the list to identify your best performers." "Found 3 top-selling products" = true := by
  have htok : (env (tokenEnvVar (normalizeShop "my-shop"))).getD "" = "" := by
    rw [show tokenEnvVar (normalizeShop "my-shop")
          = "SHOPIFY_ACCESS_TOKEN_my-shop_myshopify_com" from rfl, h]
    rfl
  have hx : executeQuery env net "my-shop"
      (asPyStr (pyGet (generateShopifyqlQuery none "what are my top 5 selling products" "my-shop") "query"))
      (asPyStr (pyGet (generateShopifyqlQuery none "what are my top 5 selling products" "my-shop") "intent"))
      = mockData "products" "SHOW top_selling_products FROM orders SINCE -7d LIMIT 5" :=
    executeQuery_noToken _ _ _ _ _ htok
  refine ⟨?_, ?_, rfl, rfl, rfl⟩
  · simp only [processQuestion]
    rw [hx]
    rfl
  · simp only [processQuestion]
    rw [hx]
    rfl

theorem c1_end_to_end_witness :
    processQuestion none none (fun _ => none) (fun _ => HttpOutcome.exn)
        "what are my top 5 selling products" "my-shop"
      = JVal.obj [
          ("answer", .str "Found 3 top-selling products. Review the list to identify your best performers."),
          ("confidence", .str "medium"),
          ("query_used", .str "SHOW top_selling_products FROM orders SINCE -7d LIMIT 5"),
          ("data", .arr [
            .obj [("id", .num 1), ("title", .str "Product X"),
                  ("price", .str "29.99"), ("sales_count", .num 150)],
            .obj [("id", .num 2), ("title", .str "Product Y"),
                  ("price", .str "49.99"), ("sales_count", .num 120)],
            .obj [("id", .num 3), ("title", .str "Product Z"),
                  ("price", .str "19.99"), ("sales_count", .num 100)]])] :=
  (c1_end_to_end (fun _ => none) (fun _ => HttpOutcome.exn) rfl).1

/-- Claim C2: for every store id, query and query type (so in particular
the four intents), and for every outcome of the single outbound REST call
(any status, network failure or exception), `execute_query` reports
success = true and carries no error field, whose truthiness is false —
so the pipeline's "Failed to execute query" branch is unreachable; and
whenever that single call's outcome is a failure (non-200 status,
network failure or exception), the result is exactly the intent's mock
dataset — the swallow-and-degrade policy. -/
theorem c2_fetch_never_errors (env : String → Option String) (net : String → HttpOutcome)
    (store_id query query_type : String) :
    pyGet (executeQuery env net store_id query query_type) "success" = .bool true
    ∧ pyGet (executeQuery env net store_id query query_type) "error" = .null
    ∧ (pyGet (executeQuery env net store_id query query_type) "error").truthy = false
    ∧ ((∀ u, (net u).isFailure = true) →
        executeQuery env net store_id query query_type = mockData query_type query) := by
  refine ⟨(executeQuery_ok env net store_id query query_type).1,
          (executeQuery_ok env net store_id query query_type).2, ?_, ?_⟩
  · rw [(executeQuery_ok env net store_id query query_type).2]
    rfl
  · intro h
    unfold executeQuery
    split_ifs with h1 h2 h3 h4 h5
    · rfl
    · rw [h2, getInventoryData_failed _ _ _ h]
      rfl
    · rw [h3, getProductsData_failed _ _ _ _ h]
    · rw [h4, getOrdersData_failed _ _ _ _ h]
    · rw [h5, getCustomersData_failed _ _ _ _ h]
    · rfl

theorem c2_fetch_never_errors_witness :
    executeQuery (fun _ => some "shpat-token") (fun _ => HttpOutcome.exn)
        "my-shop" "SHOW total_sales FROM orders SINCE -30d" "sales"
      = mockData "sales" "SHOW total_sales FROM orders SINCE -30d" :=
  (c2_fetch_never_errors (fun _ => some "shpat-token") (fun _ => HttpOutcome.exn)
    "my-shop" "SHOW total_sales FROM orders SINCE -30d" "sales").2.2.2 (fun _ => rfl)

/-- Claim C3: with no access token configured for the store,
`execute_query` returns the fixed mock dataset for every query type with
success = true, independently of the network (no network call can
influence the result); the mock sales dataset carries exactly
total_sales = 12500.50, order_count = 45, average_order_value = 277.79,
and the mock inventory dataset has exactly 3 records, the one named
"Product B" with quantity = 5. -/
theorem c3_no_token_mock (env : String → Option String) (net : String → HttpOutcome)
    (store_id query : String)
    (h : env (tokenEnvVar (normalizeShop store_id)) = none) :
    (∀ query_type, executeQuery env net store_id query query_type = mockData query_type query)
    ∧ (∀ query_type (net' : String → HttpOutcome),
        executeQuery env net store_id query query_type
          = executeQuery env net' store_id query query_type)
    ∧ (∀ query_type, pyGet (executeQuery env net store_id query query_type) "success" = .bool true)
    ∧ pyGet (mockData "sales" query) "data"
        = .obj [("total_sales", .num ((25001 : Rat) / 2)),
                ("order_count", .num 45),
                ("average_order_value", .num ((27779 : Rat) / 100)),
                ("period", .str "last 30 days")]
    ∧ pyGet (mockData "inventory" query) "data"
        = .arr [
            .obj [("product_id", .num 1), ("product_name", .str "Product A"),
                  ("quantity", .num 15), ("location", .str "Main Warehouse")],
            .obj [("product_id", .num 2), ("product_name", .str "Product B"),
                  ("quantity", .num 5), ("location", .str "Main Warehouse")],
            .obj [("product_id", .num 3), ("product_name", .str "Product C"),
                  ("quantity", .num 45), ("location", .str "Main Warehouse")]] := by
  have h' : (env (tokenEnvVar (normalizeShop store_id))).getD "" = "" := by rw [h]; rfl
  refine ⟨fun t => executeQuery_noToken _ _ _ _ _ h', fun t net' => ?_, fun t => ?_, rfl, rfl⟩
  · rw [executeQuery_noToken _ _ _ _ _ h', executeQuery_noToken _ _ _ _ _ h']
  · rw [executeQuery_noToken _ _ _ _ _ h']
    exact (mockData_ok _ _).1

theorem c3_no_token_mock_witness :
    executeQuery (fun _ => none) (fun _ => HttpOutcome.exn) "my-shop" "" "sales"
      = mockData "sales" "" :=
  (c3_no_token_mock (fun _ => none) (fun _ => HttpOutcome.exn) "my-shop" "" rfl).1 "sales"

/-- Claim C4 fails as stated: "restock top products" contains "top" and
"product" in lower case, yet the stock keyword of the earlier branch
wins and the fallback classifies it as inventory, not products. -/
theorem c4_counterexample :
    pyContains (pyLower "restock top products") "top" = true
    ∧ pyContains (pyLower "restock top products") "product" = true
    ∧ pyGet (fallbackQueryGeneration "restock top products") "intent" = .str "inventory"
    ∧ JVal.str "inventory" ≠ JVal.str "products" := by
  refine ⟨rfl, rfl, rfl, ?_⟩
  simp

/-- Claim C4, amended: for every question whose lower-cased text contains
both "top" and "product" and contains neither "inventory" nor "stock"
(so the earlier inventory branch does not fire), the fallback classifier
yields intent = products with a query whose LIMIT clause is 5. -/
theorem c4_amended (question : String)
    (h1 : pyContains (pyLower question) "top" = true)
    (h2 : pyContains (pyLower question) "product" = true)
    (h3 : pyContains (pyLower question) "inventory" = false)
    (h4 : pyContains (pyLower question) "stock" = false) :
    fallbackQueryGeneration question
      = .obj [("intent", .str "products"),
              ("query", .str "SHOW top_selling_products FROM orders SINCE -7d LIMIT 5")] := by
  simp only [fallbackQueryGeneration, h1, h2, h3, h4, Bool.or_self, Bool.false_or,
    Bool.and_self, if_false, if_true, ite_self]
  rfl

theorem c4_amended_witness :
    fallbackQueryGeneration "my top products"
      = JVal.obj [("intent", .str "products"),
                  ("query", .str "SHOW top_selling_products FROM orders SINCE -7d LIMIT 5")] :=
  c4_amended "my top products" rfl rfl rfl rfl

/-- Claim C5: for every question whose lower-cased text contains both
"inventory" and "low", the fallback classifier yields intent = inventory
with the quantity-threshold query (which contains "quantity < 20"). -/
theorem c5_low_inventory (question : String)
    (h1 : pyContains (pyLower question) "inventory" = true)
    (h2 : pyContains (pyLower question) "low" = true) :
    fallbackQueryGeneration question
      = .obj [("intent", .str "inventory"),
              ("query", .str "SHOW inventory_levels FROM products WHERE quantity < 20")]
    ∧ pyContains "SHOW inventory_levels FROM products WHERE quantity < 20" "quantity < 20" = true := by
  refine ⟨?_, rfl⟩
  simp only [fallbackQueryGeneration, h1, h2, Bool.true_or, Bool.or_true, if_true]

theorem c5_low_inventory_witness :
    fallbackQueryGeneration "low inventory"
      = JVal.obj [("intent", .str "inventory"),
                  ("query", .str "SHOW inventory_levels FROM products WHERE quantity < 20")] :=
  (c5_low_inventory "low inventory" rfl rfl).1

/-- Claim C6: for every question, query type and empty/falsy data value,
the fallback explanation is the fixed check-your-store-connection message
with confidence = low. -/
theorem c6_empty_data (question query_type : String) (data : JVal)
    (h : data.truthy = false) :
    fallbackExplanation question data query_type
      = some (.obj [("answer", .str "I couldn\x27t retrieve the requested data. Please check your store connection and try again."),
                    ("confidence", .str "low")]) := by
  unfold fallbackExplanation
  rw [if_pos h]

theorem c6_empty_data_witness :
    fallbackExplanation "how are sales" JVal.null "products"
      = some (JVal.obj [("answer", .str "I couldn\x27t retrieve the requested data. Please check your store connection and try again."),
                        ("confidence", .str "low")]) :=
  c6_empty_data "how are sales" "products" JVal.null rfl

/-- Claim C7: for the sales intent with non-empty dict data, the fallback
explanation reports the total read from "total_sales", falling back to
"sales" and then to 0, currency-formatted with two decimals, at
confidence = medium. -/
theorem c7_sales_total (question : String) (fields : List (String × JVal)) (q : Rat)
    (h1 : (JVal.obj fields).truthy = true)
    (h2 : (lookupField fields "total_sales").getD ((lookupField fields "sales").getD (.num 0))
            = .num q) :
    fallbackExplanation question (.obj fields) "sales"
      = some (.obj [("answer", .str ("Total sales: $" ++ formatFixed2 q ++ " for the requested period.")),
                    ("confidence", .str "medium")]) := by
  unfold fallbackExplanation
  rw [if_neg (by rw [h1]; simp)]
  rw [if_neg (by decide), if_neg (by decide), if_pos rfl]
  simp only [h2]

theorem c7_sales_total_witness :
    fallbackExplanation "what were my sales" (.obj [("total_sales", .num ((25001 : Rat) / 2))]) "sales"
      = some (JVal.obj [("answer", .str "Total sales: $12500.50 for the requested period."),
                        ("confidence", .str "medium")])
    ∧ pyContains "Total sales: $12500.50 for the requested period." "12500.50" = true := by
  constructor
  · have h := c7_sales_total "what were my sales"
      [("total_sales", .num ((25001 : Rat) / 2))] ((25001 : Rat) / 2) rfl rfl
    rw [h, formatFixed2_mockSales]
    rfl
  · rfl

/-- Claim C8 fails as stated: python's `str.replace` strips scheme
occurrences anywhere, not only a leading prefix, so a canonical-looking
input with an interior scheme substring is changed; and replacement can
even create a new scheme occurrence, so normalize∘normalize differs from
normalize on a concrete input. -/
theorem c8_counterexample :
    (pyStartsWith "ahttp://b.myshopify.com" "http://" = false
      ∧ pyStartsWith "ahttp://b.myshopify.com" "https://" = false
      ∧ pyEndsWith "ahttp://b.myshopify.com" ".myshopify.com" = true
      ∧ normalizeShop "ahttp://b.myshopify.com" ≠ "ahttp://b.myshopify.com")
    ∧ normalizeShop (normalizeShop "hthttp://tp://x.myshopify.com")
        ≠ normalizeShop "hthttp://tp://x.myshopify.com" := by
  refine ⟨⟨rfl, rfl, rfl, by decide⟩, by decide⟩

/-- Claim C8, amended: `_normalize_shop` leaves unchanged every input
that ends in ".myshopify.com" and contains no scheme substring anywhere
(not merely no scheme prefix); consequently it is idempotent at every
input whose normalized form is free of scheme substrings. -/
theorem c8_amended :
    (∀ s : String, pyEndsWith s ".myshopify.com" = true →
        pyContains s "https://" = false → pyContains s "http://" = false →
        normalizeShop s = s)
    ∧ (∀ s : String, pyContains (normalizeShop s) "https://" = false →
        pyContains (normalizeShop s) "http://" = false →
        normalizeShop (normalizeShop s) = normalizeShop s) := by
  have main : ∀ s : String, pyEndsWith s ".myshopify.com" = true →
      pyContains s "https://" = false → pyContains s "http://" = false →
      normalizeShop s = s := by
    intro s h1 h2 h3
    simp only [normalizeShop]
    rw [pyReplace_no_occur s "https://" "" h2, pyReplace_no_occur s "http://" "" h3, if_pos h1]
  exact ⟨main, fun s h2 h3 => main _ (normalizeShop_endsWith s) h2 h3⟩

theorem c8_amended_witness :
    normalizeShop "cafe-nostalgia.myshopify.com" = "cafe-nostalgia.myshopify.com" :=
  c8_amended.1 "cafe-nostalgia.myshopify.com" rfl rfl rfl

/-- Evaluation of the inventory fallback on a nonempty list whose
comprehension returns: it reports the low-stock count. -/
theorem fallbackExplanation_inventory_eval (question : String) (a : JVal) (as low : List JVal)
    (hfl : filterLow (a :: as) = some low) :
    fallbackExplanation question (.arr (a :: as)) "inventory"
      = some (.obj [("answer", .str ("Found " ++ toString low.length
                      ++ " products with low inventory (less than 20 units). Consider reordering soon.")),
                    ("confidence", .str "medium")]) := by
  simp [fallbackExplanation, JVal.truthy, hfl]

/-- Claim C9: every value the fallback explanation returns carries a
confidence of "low" or "medium" — never "high", so a high-confidence
answer can only come from the LLM path. -/
theorem c9_confidence (question : String) (data : JVal) (query_type : String) (e : JVal)
    (h : fallbackExplanation question data query_type = some e) :
    pyGet e "confidence" = .str "low" ∨ pyGet e "confidence" = .str "medium" := by
  unfold fallbackExplanation at h
  split_ifs at h <;> (try split at h) <;> (try split_ifs at h) <;> (try split at h) <;>
    cases h <;> first | exact Or.inl rfl | exact Or.inr rfl

theorem c9_confidence_witness :
    pyGet (JVal.obj [("answer", .str "I couldn\x27t retrieve the requested data. Please check your store connection and try again."),
                     ("confidence", .str "low")]) "confidence" = .str "low"
    ∨ pyGet (JVal.obj [("answer", .str "I couldn\x27t retrieve the requested data. Please check your store connection and try again."),
                       ("confidence", .str "low")]) "confidence" = .str "medium" :=
  c9_confidence "how are sales" JVal.null "sales" _ rfl

/-- Claim C10: in the inventory fallback on a nonempty record list, a
record without a "quantity" field passes the low-stock test (it is read
as 0, below 20), hence is kept by the comprehension whose length the
answer reports. -/
theorem c10_missing_quantity (question : String) (items lowStock : List JVal)
    (fields : List (String × JVal))
    (hmem : JVal.obj fields ∈ items)
    (hq : lookupField fields "quantity" = none)
    (hfl : filterLow items = some lowStock) :
    JVal.obj fields ∈ lowStock
    ∧ fallbackExplanation question (.arr items) "inventory"
        = some (.obj [("answer", .str ("Found " ++ toString lowStock.length
                        ++ " products with low inventory (less than 20 units). Consider reordering soon.")),
                      ("confidence", .str "medium")]) := by
  have hlow : qtyLow (.obj fields) = some true := by
    unfold qtyLow
    simp only [hq]
    rfl
  refine ⟨mem_filterLow hmem hlow hfl, ?_⟩
  cases items with
  | nil => cases hmem
  | cons a as => exact fallbackExplanation_inventory_eval question a as lowStock hfl

theorem c10_missing_quantity_witness :
    JVal.obj [("product_name", JVal.str "Product A")]
        ∈ [JVal.obj [("product_name", JVal.str "Product A")]]
    ∧ fallbackExplanation "which items are low" (.arr [JVal.obj [("product_name", JVal.str "Product A")]]) "inventory"
        = some (JVal.obj [("answer", .str "Found 1 products with low inventory (less than 20 units). Consider reordering soon."),
                          ("confidence", .str "medium")]) :=
  c10_missing_quantity "which items are low"
    [JVal.obj [("product_name", JVal.str "Product A")]]
    [JVal.obj [("product_name", JVal.str "Product A")]]
    [("product_name", JVal.str "Product A")]
    (List.mem_cons_self _ _) rfl rfl
